import Mathlib

/-!
Shallow embedding of the stock-transaction ledger of `src/app.py`
(the POST handler `add_transaction`, lines 460-707, and the POST branch of
`edit_transaction`, lines 709-803), over the data model of `src/models.py`.

Python integers are modelled as `Int`.  Wall-clock timestamp columns
(`issue_date`, `date`, `last_updated`, `date_added`, `created_at`) are
omitted: they carry no ledger logic.  The relational stores are modelled as
lists in insertion order; SQLAlchemy's `.first()` on a filtered query is the
first match in that order.  Form inputs arrive already stripped, so the
"missing" checks of the handler are emptiness tests; a missing select-box
value is `Option.none`.  The handler mutates ORM rows and commits only after
all validation, so state is threaded explicitly: each operation returns the
store after the request together with the domain error flashed to the user
(`none` on success).
-/

namespace ComponentsData

/-- Component row of `models.py`, restricted to the fields the ledger reads
or writes (`id` and `quantity`); `component.quantity or 0` in the handler
only replaces SQL `NULL` by `0`, so `quantity` is modelled as a plain `Int`. -/
structure Component where
  id : Nat
  quantity : Int
deriving DecidableEq, Repr

/-- Status values the source ever stores in `Transaction.status`:
"Issued", "Partially Returned", "Completed". -/
inductive Status where
  | issued
  | partReturned
  | completed
deriving DecidableEq, Repr

/-- Test `status.in_(['Issued', 'Partially Returned'])` used by every
transaction lookup of the ledger. -/
def Status.isOpen : Status → Bool
  | .issued => true
  | .partReturned => true
  | .completed => false

/-- Transaction row of `models.py` (timestamp columns omitted). -/
structure Txn where
  id : Nat
  component_id : Nat
  lab_id : Option Nat
  campus : Option String
  person_name : String
  purpose : String
  qty_issued : Int
  qty_returned : Int
  pending_qty : Int
  status : Status
  quantity_before : Int
  quantity_after : Int
  transaction_quantity : Int
  last_action : String
  notes : String
deriving DecidableEq, Repr

/-- Matching key used by the lookups: (component, lab, campus, person,
purpose). -/
structure MatchKey where
  component_id : Nat
  lab_id : Option Nat
  campus : Option String
  person_name : String
  purpose : String
deriving DecidableEq, Repr

/-- Matching key carried by a transaction row. -/
def Txn.key (t : Txn) : MatchKey :=
  ⟨t.component_id, t.lab_id, t.campus, t.person_name, t.purpose⟩

/-- Lookup at `app.py:569-576` / `629-636` / `741-748`: the five equality
filters plus the open-status filter, `.first()` being the first match in
store order. -/
def findOpen (ts : List Txn) (k : MatchKey) : Option Txn :=
  ts.find? (fun t => decide (t.key = k) && t.status.isOpen)

/-- Lookup `Component.query.get(component_id)`. -/
def getComponent (cs : List Component) (cid : Nat) : Option Component :=
  cs.find? (fun c => c.id == cid)

/-- ORM attribute assignment plus commit on the component row with this id
(`component.quantity = quantity_after`). -/
def setQuantity (cs : List Component) (cid : Nat) (q : Int) : List Component :=
  cs.map (fun c => if c.id = cid then { c with quantity := q } else c)

/-- ORM update plus commit of the transaction row with this id. -/
def setTxn (ts : List Txn) (tid : Nat) (t' : Txn) : List Txn :=
  ts.map (fun t => if t.id = tid then t' else t)

/-- Backing store: the component table, the transaction table (in insertion
order) and the next free transaction primary key. -/
structure Store where
  components : List Component
  transactions : List Txn
  nextTxnId : Nat
deriving DecidableEq, Repr

/-- Domain errors flashed by the two handlers, one per distinct rejection
message; `insufficientStock` and `returnExceedsPending` carry the numbers
interpolated into their messages. -/
inductive LedgerError where
  | invalidQuantity
  | missingLab
  | missingComponent
  | missingPersonOrPurpose
  | componentNotFound
  | insufficientStock (requested available : Int)
  | noOpenTxn
  | nothingPendingToReturn
  | returnExceedsPending (requested pending : Int)
  | invalidType
deriving DecidableEq, Repr

/-- Normalisation `campus = campus or None` (app.py:567 and 627): an empty
campus string is turned into SQL `NULL` before matching. -/
def normCampus (c : Option String) : Option String :=
  if c = some "" then none else c

/-- POST handler `add_transaction` (app.py:480-698).  Validation happens
strictly before the branch on `transaction_type`; each error path returns
the input store unchanged because the handler raises before any ORM write.
On success the component quantity and the matched-or-created transaction
are both committed. -/
def add_transaction (st : Store) (transaction_type : String)
    (component_id : Option Nat) (lab_id : Option Nat) (campus0 : Option String)
    (person_name purpose notes : String) (qty : Int) :
    Store × Option LedgerError :=
  if qty ≤ 0 then (st, some .invalidQuantity)
  else if lab_id.isNone then (st, some .missingLab)
  else if component_id.isNone then (st, some .missingComponent)
  else if person_name = "" ∨ purpose = "" then (st, some .missingPersonOrPurpose)
  else
    match component_id with
    | none => (st, some .missingComponent)
    | some cid =>
      match getComponent st.components cid with
      | none => (st, some .componentNotFound)
      | some component =>
        if transaction_type = "issue" then
          let current_stock := component.quantity
          if qty > current_stock then
            (st, some (.insufficientStock qty current_stock))
          else
            let quantity_after := current_stock - qty
            let campus := normCampus campus0
            match findOpen st.transactions ⟨cid, lab_id, campus, person_name, purpose⟩ with
            | some existing =>
              let new_issued := existing.qty_issued + qty
              let qr := existing.qty_returned
              let pending := new_issued - qr
              let status : Status :=
                if qr = 0 then .issued
                else if pending ≤ 0 then .completed
                else .partReturned
              let updated : Txn := { existing with
                qty_issued := new_issued
                pending_qty := pending
                status := status
                quantity_before := current_stock
                quantity_after := quantity_after
                transaction_quantity := qty
                last_action := "issue"
                notes := if notes = "" then existing.notes else notes }
              ({ st with
                  transactions := setTxn st.transactions existing.id updated
                  components := setQuantity st.components cid quantity_after }, none)
            | none =>
              let doc : Txn := {
                id := st.nextTxnId
                component_id := cid
                lab_id := lab_id
                campus := campus
                person_name := person_name
                purpose := purpose
                qty_issued := qty
                qty_returned := 0
                pending_qty := qty
                status := .issued
                quantity_before := current_stock
                quantity_after := quantity_after
                transaction_quantity := qty
                last_action := "issue"
                notes := notes }
              ({ st with
                  components := setQuantity st.components cid quantity_after
                  transactions := st.transactions ++ [doc]
                  nextTxnId := st.nextTxnId + 1 }, none)
        else if transaction_type = "return" then
          let current_stock := component.quantity
          let campus := normCampus campus0
          match findOpen st.transactions ⟨cid, lab_id, campus, person_name, purpose⟩ with
          | none => (st, some .noOpenTxn)
          | some existing =>
            let qi := existing.qty_issued
            let qr := existing.qty_returned
            let pending := qi - qr
            if pending ≤ 0 then (st, some .nothingPendingToReturn)
            else if qty > pending then (st, some (.returnExceedsPending qty pending))
            else
              let new_returned := qr + qty
              let new_pending := qi - new_returned
              let status : Status := if new_pending ≤ 0 then .completed else .partReturned
              let quantity_after := current_stock + qty
              let updated : Txn := { existing with
                qty_returned := new_returned
                pending_qty := new_pending
                status := status
                quantity_before := current_stock
                quantity_after := quantity_after
                transaction_quantity := qty
                last_action := "return"
                notes := existing.notes ++ (if notes = "" then "" else "\nReturn: " ++ notes) }
              ({ st with
                  transactions := setTxn st.transactions existing.id updated
                  components := setQuantity st.components cid quantity_after }, none)
        else (st, some .invalidType)

/-- Outcome of the edit-screen handler: besides the domain errors it can
report a missing transaction id (flash plus redirect, app.py:713-715) or
crash with an uncaught `AttributeError` when the transaction's component row
is gone (`component.quantity` on `None`, app.py:735). -/
inductive EditOutcome where
  | txnNotFound
  | crash
  | err (e : LedgerError)
  | ok
deriving DecidableEq, Repr

/-- POST branch of `edit_transaction` (app.py:709-793): a return recorded
against a transaction id, re-deriving lab/campus/person/purpose from the
stored row and then matching an open transaction by that key exactly like
the direct return form. -/
def edit_transaction (st : Store) (transaction_id : Nat) (return_now : Int)
    (notes : String) : Store × EditOutcome :=
  match st.transactions.find? (fun t => t.id == transaction_id) with
  | none => (st, .txnNotFound)
  | some txn =>
    if return_now ≤ 0 then (st, .err .invalidQuantity)
    else
      match getComponent st.components txn.component_id with
      | none => (st, .crash)
      | some component =>
        let current_stock := component.quantity
        match findOpen st.transactions
            ⟨txn.component_id, txn.lab_id, txn.campus, txn.person_name, txn.purpose⟩ with
        | none => (st, .err .noOpenTxn)
        | some existing =>
          let qi := existing.qty_issued
          let qr := existing.qty_returned
          let pending := qi - qr
          if pending ≤ 0 then (st, .err .nothingPendingToReturn)
          else if return_now > pending then
            (st, .err (.returnExceedsPending return_now pending))
          else
            let new_returned := qr + return_now
            let new_pending := qi - new_returned
            let status : Status := if new_pending ≤ 0 then .completed else .partReturned
            let quantity_after := current_stock + return_now
            let updated : Txn := { existing with
              qty_returned := new_returned
              pending_qty := new_pending
              status := status
              quantity_before := current_stock
              quantity_after := quantity_after
              transaction_quantity := return_now
              last_action := "return"
              notes := existing.notes ++ (if notes = "" then "" else "\nReturn: " ++ notes) }
            ({ st with
                transactions := setTxn st.transactions existing.id updated
                components := setQuantity st.components txn.component_id quantity_after }, .ok)

/-- Invariant of spec section 3: `pending_qty` equals
`qty_issued - qty_returned` on every transaction row. -/
def pendingInv (ts : List Txn) : Prop :=
  ∀ t ∈ ts, t.pending_qty = t.qty_issued - t.qty_returned

/-- Number of open transactions carrying a given matching key. -/
def openCount (ts : List Txn) (k : MatchKey) : Nat :=
  (ts.filter (fun t => decide (t.key = k) && t.status.isOpen)).length

/-- Invariant of spec section 3: at most one open transaction per matching
key. -/
def atMostOneOpen (ts : List Txn) : Prop :=
  ∀ k, openCount ts k ≤ 1


/-! Concrete fixtures used by the witness theorems below: a store holding one
component with ten units in stock, and the stores reached from it by issuing
four, issuing three more against the same key, and returning two. -/

def S0 : Store := ⟨[⟨1, 10⟩], [], 0⟩

def T0 : Txn := ⟨0, 1, some 1, none, "alice", "proj", 4, 0, 4, .issued, 10, 6, 4, "issue", ""⟩

def S1 : Store := ⟨[⟨1, 6⟩], [T0], 1⟩

def T1 : Txn := ⟨0, 1, some 1, none, "alice", "proj", 7, 0, 7, .issued, 6, 3, 3, "issue", ""⟩

def S2 : Store := ⟨[⟨1, 3⟩], [T1], 1⟩

def T2 : Txn := ⟨0, 1, some 1, none, "alice", "proj", 7, 2, 5, .partReturned, 3, 5, 2, "return", ""⟩

def S3 : Store := ⟨[⟨1, 5⟩], [T2], 1⟩

def T2n : Txn := ⟨0, 1, some 1, none, "alice", "proj", 7, 2, 5, .partReturned, 3, 5, 2, "return", "\nReturn: ok"⟩

def S3n : Store := ⟨[⟨1, 5⟩], [T2n], 1⟩

def Tpend : Txn := ⟨5, 1, some 1, none, "alice", "proj", 0, 0, 0, .issued, 0, 0, 0, "issue", ""⟩

def Spend : Store := ⟨[⟨1, 10⟩], [Tpend], 6⟩

theorem mem_setTxn {ts : List Txn} {tid : Nat} {u t' : Txn}
    (h : t' ∈ setTxn ts tid u) : t' = u ∨ t' ∈ ts := by
  simp only [setTxn, List.mem_map] at h
  obtain ⟨a, ha, rfl⟩ := h
  by_cases hc : a.id = tid <;> simp [hc, ha]

theorem mem_setQuantity {cs : List Component} {cid : Nat} {q : Int} {c' : Component}
    (h : c' ∈ setQuantity cs cid q) : (∃ c ∈ cs, c' = { c with quantity := q }) ∨ c' ∈ cs := by
  simp only [setQuantity, List.mem_map] at h
  obtain ⟨a, ha, rfl⟩ := h
  by_cases hc : a.id = cid
  · rw [if_pos hc]; exact Or.inl ⟨a, ha, rfl⟩
  · rw [if_neg hc]; exact Or.inr ha

theorem findOpen_some {ts : List Txn} {k : MatchKey} {t : Txn}
    (h : findOpen ts k = some t) : t ∈ ts ∧ t.key = k ∧ t.status.isOpen = true := by
  have hm := List.mem_of_find?_eq_some h
  have hp := List.find?_some h
  simp only [Bool.and_eq_true, decide_eq_true_eq] at hp
  exact ⟨hm, hp.1, hp.2⟩

theorem findOpen_none {ts : List Txn} {k : MatchKey}
    (h : findOpen ts k = none) : ∀ t ∈ ts, t.key = k → t.status.isOpen = false := by
  intro t ht hk
  have := List.find?_eq_none.mp h t ht
  simp only [Bool.and_eq_true, decide_eq_true_eq, not_and] at this
  exact Bool.eq_false_iff.mpr fun hb => (this hk) hb

theorem length_filter_map_le {α : Type} (l : List α) (f : α → α) (p : α → Bool)
    (h : ∀ u ∈ l, p (f u) = true → p u = true) :
    ((l.map f).filter p).length ≤ (l.filter p).length := by
  induction l with
  | nil => simp
  | cons a l ih =>
    have ha := h a (by simp)
    have ih' := ih fun u hu hp => h u (by simp [hu]) hp
    simp only [List.map_cons, List.filter_cons]
    by_cases h1 : p (f a) = true
    · rw [if_pos h1, if_pos (ha h1)]
      simpa using ih'
    · rw [if_neg h1]
      by_cases h2 : p a = true
      · rw [if_pos h2]
        simp only [List.length_cons]
        omega
      · rw [if_neg h2]
        exact ih'

theorem issue_ok_inv (st : Store) (cid lab : Nat) (campus0 : Option String)
    (person purpose notes : String) (qty : Int) (st' : Store)
    (h : add_transaction st "issue" (some cid) (some lab) campus0 person purpose notes qty
      = (st', none)) :
    0 < qty ∧ person ≠ "" ∧ purpose ≠ "" ∧
    ∃ c, getComponent st.components cid = some c ∧ qty ≤ c.quantity ∧
      st'.components = setQuantity st.components cid (c.quantity - qty) ∧
      ((∃ t, findOpen st.transactions ⟨cid, some lab, normCampus campus0, person, purpose⟩
            = some t ∧
          st'.transactions = setTxn st.transactions t.id
            { t with qty_issued := t.qty_issued + qty,
                     pending_qty := t.qty_issued + qty - t.qty_returned,
                     status := if t.qty_returned = 0 then Status.issued
                       else if t.qty_issued + qty - t.qty_returned ≤ 0 then Status.completed
                       else Status.partReturned,
                     quantity_before := c.quantity,
                     quantity_after := c.quantity - qty,
                     transaction_quantity := qty,
                     last_action := "issue",
                     notes := if notes = "" then t.notes else notes } ∧
          st'.nextTxnId = st.nextTxnId) ∨
       (findOpen st.transactions ⟨cid, some lab, normCampus campus0, person, purpose⟩
            = none ∧
          st'.transactions = st.transactions ++
            [⟨st.nextTxnId, cid, some lab, normCampus campus0, person, purpose,
              qty, 0, qty, Status.issued, c.quantity, c.quantity - qty, qty, "issue", notes⟩] ∧
          st'.nextTxnId = st.nextTxnId + 1)) := by
  unfold add_transaction at h
  simp only [Option.isNone_some, Bool.false_eq_true, if_false] at h
  split at h
  · simp at h
  next hq =>
    split at h
    · simp at h
    next hpp =>
      split at h
      · simp at h
      next c hc =>
        split at h
        next =>
          split at h
          · simp at h
          next hstock =>
            refine ⟨by omega, fun hp => hpp (Or.inl hp), fun hp => hpp (Or.inr hp),
              c, hc, by omega, ?_⟩
            split at h
            next t hfind =>
              simp only [Prod.mk.injEq, and_true] at h
              subst h
              exact ⟨rfl, Or.inl ⟨t, hfind, rfl, rfl⟩⟩
            next hfind =>
              simp only [Prod.mk.injEq, and_true] at h
              subst h
              exact ⟨rfl, Or.inr ⟨hfind, rfl, rfl⟩⟩
        next hne => exact absurd trivial hne

theorem return_ok_inv (st : Store) (cid lab : Nat) (campus0 : Option String)
    (person purpose notes : String) (qty : Int) (st' : Store)
    (h : add_transaction st "return" (some cid) (some lab) campus0 person purpose notes qty
      = (st', none)) :
    0 < qty ∧ person ≠ "" ∧ purpose ≠ "" ∧
    ∃ c t, getComponent st.components cid = some c ∧
      findOpen st.transactions ⟨cid, some lab, normCampus campus0, person, purpose⟩ = some t ∧
      0 < t.qty_issued - t.qty_returned ∧ qty ≤ t.qty_issued - t.qty_returned ∧
      st'.transactions = setTxn st.transactions t.id
        { t with qty_returned := t.qty_returned + qty,
                 pending_qty := t.qty_issued - (t.qty_returned + qty),
                 status := if t.qty_issued - (t.qty_returned + qty) ≤ 0 then Status.completed
                   else Status.partReturned,
                 quantity_before := c.quantity,
                 quantity_after := c.quantity + qty,
                 transaction_quantity := qty,
                 last_action := "return",
                 notes := t.notes ++ (if notes = "" then "" else "\nReturn: " ++ notes) } ∧
      st'.components = setQuantity st.components cid (c.quantity + qty) ∧
      st'.nextTxnId = st.nextTxnId := by
  unfold add_transaction at h
  simp only [Option.isNone_some, Bool.false_eq_true, if_false] at h
  split at h
  · simp at h
  next hq =>
    split at h
    · simp at h
    next hpp =>
      split at h
      · simp at h
      next c hc =>
        split at h
        next hne => simp at hne
        next =>
          split at h
          next =>
            split at h
            · simp at h
            next t hfind =>
              split at h
              · simp at h
              next hpend =>
                split at h
                · simp at h
                next hexceed =>
                  simp only [Prod.mk.injEq, and_true] at h
                  subst h
                  exact ⟨by omega, fun hp => hpp (Or.inl hp), fun hp => hpp (Or.inr hp),
                    c, t, hc, hfind, by omega, by omega, rfl, rfl, rfl⟩
          next hne => exact absurd trivial hne

set_option maxHeartbeats 1600000 in
theorem add_error_keeps_store (st : Store) (ty : String) (cid0 lab0 : Option Nat)
    (campus0 : Option String) (person purpose notes : String) (qty : Int) :
    (add_transaction st ty cid0 lab0 campus0 person purpose notes qty).2 ≠ none →
    (add_transaction st ty cid0 lab0 campus0 person purpose notes qty).1 = st := by
  simp only [add_transaction]
  repeat' split
  all_goals intro hh
  all_goals first | rfl | exact absurd rfl hh

set_option maxHeartbeats 800000 in
theorem edit_error_keeps_store (st : Store) (transaction_id : Nat) (return_now : Int)
    (notes : String) :
    (edit_transaction st transaction_id return_now notes).2 ≠ EditOutcome.ok →
    (edit_transaction st transaction_id return_now notes).1 = st := by
  simp only [edit_transaction]
  repeat' split
  all_goals intro hh
  all_goals first | rfl | exact absurd rfl hh

theorem openCount_setTxn_le {ts : List Txn} (hnodup : (ts.map Txn.id).Nodup) {t u : Txn}
    (ht : t ∈ ts) (hkey : u.key = t.key) (hopen : t.status.isOpen = true) (k : MatchKey) :
    openCount (setTxn ts t.id u) k ≤ openCount ts k := by
  apply length_filter_map_le
  intro v hv hpv
  by_cases hvid : v.id = t.id
  · have hveq : v = t := List.inj_on_of_nodup_map hnodup hv ht hvid
    subst hveq
    rw [if_pos hvid] at hpv
    simp only [Bool.and_eq_true, decide_eq_true_eq] at hpv ⊢
    exact ⟨hkey ▸ hpv.1, hopen⟩
  · rwa [if_neg hvid] at hpv

theorem completed_mem_setTxn {ts : List Txn} (hnodup : (ts.map Txn.id).Nodup) {t u : Txn}
    (ht : t ∈ ts) (hopen : t.status.isOpen = true) {v : Txn} (hv : v ∈ ts)
    (hcomp : v.status = Status.completed) : v ∈ setTxn ts t.id u := by
  have hvid : ¬v.id = t.id := by
    intro hid
    have heq : v = t := List.inj_on_of_nodup_map hnodup hv ht hid
    rw [← heq, hcomp] at hopen
    simp [Status.isOpen] at hopen
  exact List.mem_map.mpr ⟨v, hv, by rw [if_neg hvid]⟩

theorem atMostOneOpen_append {ts : List Txn} {k : MatchKey} {doc : Txn}
    (hone : atMostOneOpen ts) (hnone : findOpen ts k = none) (hd : doc.key = k) :
    atMostOneOpen (ts ++ [doc]) := by
  intro k'
  unfold openCount
  rw [List.filter_append, List.length_append]
  by_cases hk : k' = k
  · subst hk
    have h0 : (ts.filter fun t => decide (t.key = k') && t.status.isOpen) = [] := by
      rw [List.filter_eq_nil_iff]
      intro a ha
      have hcl := findOpen_none hnone a ha
      simp only [Bool.and_eq_true, decide_eq_true_eq, not_and]
      intro hka
      rw [hcl hka]
      exact Bool.false_ne_true
    rw [h0]
    have := List.length_filter_le (fun t => decide (t.key = k') && t.status.isOpen) [doc]
    simp only [List.length_nil, List.length_cons] at this ⊢
    omega
  · have hdoc : ([doc].filter fun t => decide (t.key = k') && t.status.isOpen) = [] := by
      simp only [List.filter_eq_nil_iff, List.mem_singleton]
      rintro a rfl
      have hkk : (k = k') = False := eq_false fun h => hk h.symm
      simp [hd, hkk]
    rw [hdoc]
    simpa using hone k'


theorem atMostOneOpen_single (t : Txn) : atMostOneOpen [t] := by
  intro k
  unfold openCount
  simpa using List.length_filter_le (fun u => decide (u.key = k) && u.status.isOpen) [t]

/-- Claim C1: an issue request that passes validation merges into the open
transaction matching (component, lab, campus, person, purpose) when one
exists — incrementing its qty_issued by the requested quantity, recomputing
pending_qty as qty_issued minus qty_returned, and recomputing the status as
Issued when qty_returned is zero, else Completed when pending_qty is at most
zero, else Partially Returned — and otherwise creates a fresh transaction
with qty_issued equal to the quantity, qty_returned zero, pending_qty equal
to the quantity and status Issued. -/
theorem issue_merges_or_creates (st : Store) (cid lab : Nat) (campus0 : Option String)
    (person purpose notes : String) (qty : Int) (st' : Store)
    (h : add_transaction st "issue" (some cid) (some lab) campus0 person purpose notes qty
      = (st', none)) :
    (∀ t, findOpen st.transactions ⟨cid, some lab, normCampus campus0, person, purpose⟩
        = some t →
      ∃ t', st'.transactions = setTxn st.transactions t.id t' ∧
        t'.qty_issued = t.qty_issued + qty ∧
        t'.qty_returned = t.qty_returned ∧
        t'.pending_qty = t'.qty_issued - t'.qty_returned ∧
        t'.status = (if t.qty_returned = 0 then Status.issued
          else if t'.pending_qty ≤ 0 then Status.completed
          else Status.partReturned)) ∧
    (findOpen st.transactions ⟨cid, some lab, normCampus campus0, person, purpose⟩ = none →
      ∃ t', st'.transactions = st.transactions ++ [t'] ∧
        t'.key = ⟨cid, some lab, normCampus campus0, person, purpose⟩ ∧
        t'.qty_issued = qty ∧ t'.qty_returned = 0 ∧
        t'.pending_qty = qty ∧ t'.status = Status.issued) := by
  obtain ⟨-, -, -, c, -, -, -, hbr⟩ := issue_ok_inv _ _ _ _ _ _ _ _ _ h
  rcases hbr with ⟨t0, hfind, htr, -⟩ | ⟨hfind, htr, -⟩
  · constructor
    · intro t ht
      rw [ht] at hfind
      cases Option.some.inj hfind
      exact ⟨_, htr, rfl, rfl, rfl, rfl⟩
    · intro hnone
      rw [hnone] at hfind
      exact Option.noConfusion hfind
  · constructor
    · intro t ht
      rw [ht] at hfind
      exact Option.noConfusion hfind
    · intro _
      exact ⟨_, htr, rfl, rfl, rfl, rfl, rfl⟩

/-- Claim C2: a return that passes validation against the matched open
transaction adds the quantity to qty_returned, recomputes pending_qty as
qty_issued minus the new qty_returned, sets the status to Completed when the
new pending is at most zero and to Partially Returned otherwise, and
increments the component's stock by the quantity. -/
theorem return_updates_transaction_and_stock (st : Store) (cid lab : Nat)
    (campus0 : Option String) (person purpose notes : String) (qty : Int) (st' : Store)
    (h : add_transaction st "return" (some cid) (some lab) campus0 person purpose notes qty
      = (st', none)) :
    ∃ c t t', getComponent st.components cid = some c ∧
      findOpen st.transactions ⟨cid, some lab, normCampus campus0, person, purpose⟩
        = some t ∧
      st'.transactions = setTxn st.transactions t.id t' ∧
      t'.qty_returned = t.qty_returned + qty ∧
      t'.qty_issued = t.qty_issued ∧
      t'.pending_qty = t.qty_issued - (t.qty_returned + qty) ∧
      t'.status = (if t.qty_issued - (t.qty_returned + qty) ≤ 0 then Status.completed
        else Status.partReturned) ∧
      st'.components = setQuantity st.components cid (c.quantity + qty) := by
  obtain ⟨-, -, -, c, t, hc, hfind, -, -, htr, hcs, -⟩ := return_ok_inv _ _ _ _ _ _ _ _ _ h
  exact ⟨c, t, _, hc, hfind, htr, rfl, rfl, rfl, rfl, hcs⟩

/-- Claim C3: a valid issue decrements the component's quantity by exactly
the issued amount and never drives it negative; an issue whose quantity
exceeds the current stock is rejected with an insufficient-stock error
carrying the requested and available amounts, before any write. -/
theorem issue_decrements_stock_and_rejects_insufficient (st : Store) (cid lab : Nat)
    (campus0 : Option String) (person purpose notes : String) (qty : Int) :
    (∀ st', add_transaction st "issue" (some cid) (some lab) campus0 person purpose notes qty
        = (st', none) →
      ∃ c, getComponent st.components cid = some c ∧
        st'.components = setQuantity st.components cid (c.quantity - qty) ∧
        0 ≤ c.quantity - qty) ∧
    (∀ c, getComponent st.components cid = some c → 0 < qty →
      person ≠ "" → purpose ≠ "" → qty > c.quantity →
      add_transaction st "issue" (some cid) (some lab) campus0 person purpose notes qty
        = (st, some (.insufficientStock qty c.quantity))) := by
  constructor
  · intro st' h
    obtain ⟨-, -, -, c, hc, hstock, hcs, -⟩ := issue_ok_inv _ _ _ _ _ _ _ _ _ h
    exact ⟨c, hc, hcs, by omega⟩
  · intro c hc hq hperson hpurpose hstock
    have hq' : ¬qty ≤ 0 := by omega
    simp [add_transaction, hc, hq', hperson, hpurpose, hstock]

/-- Claim C4: a return fails with a no-matching-open-transaction error when
no open transaction carries the key, with a nothing-left-to-return error
when the matched transaction's pending quantity is at most zero, and with a
return-exceeds-pending error carrying both numbers when the requested
quantity strictly exceeds the pending quantity. -/
theorem return_request_error_cases (st : Store) (cid lab : Nat) (campus0 : Option String)
    (person purpose notes : String) (qty : Int) (c : Component)
    (hq : 0 < qty) (hperson : person ≠ "") (hpurpose : purpose ≠ "")
    (hc : getComponent st.components cid = some c) :
    (findOpen st.transactions ⟨cid, some lab, normCampus campus0, person, purpose⟩ = none →
      add_transaction st "return" (some cid) (some lab) campus0 person purpose notes qty
        = (st, some .noOpenTxn)) ∧
    (∀ t, findOpen st.transactions ⟨cid, some lab, normCampus campus0, person, purpose⟩
        = some t →
      t.qty_issued - t.qty_returned ≤ 0 →
      add_transaction st "return" (some cid) (some lab) campus0 person purpose notes qty
        = (st, some .nothingPendingToReturn)) ∧
    (∀ t, findOpen st.transactions ⟨cid, some lab, normCampus campus0, person, purpose⟩
        = some t →
      0 < t.qty_issued - t.qty_returned →
      qty > t.qty_issued - t.qty_returned →
      add_transaction st "return" (some cid) (some lab) campus0 person purpose notes qty
        = (st, some (.returnExceedsPending qty (t.qty_issued - t.qty_returned)))) := by
  have hq' : ¬qty ≤ 0 := by omega
  refine ⟨fun hfind => ?_, fun t hfind hpend => ?_, fun t hfind hpend hex => ?_⟩
  · simp [add_transaction, hc, hq', hperson, hpurpose, hfind]
  · simp [add_transaction, hc, hq', hperson, hpurpose, hfind, hpend]
  · have hpend' : ¬t.qty_issued - t.qty_returned ≤ 0 := by omega
    simp [add_transaction, hc, hq', hperson, hpurpose, hfind, hpend', hex]

/-- Claim C5: an issue, return or edit-screen return that fails with any
domain error leaves the store exactly as it was — no component quantity and
no transaction record is mutated. -/
theorem failed_operations_leave_store_unchanged (st : Store) (ty : String)
    (cid0 lab0 : Option Nat) (campus0 : Option String) (person purpose notes : String)
    (qty : Int) (transaction_id : Nat) (return_now : Int) (rnotes : String) :
    (∀ e, (add_transaction st ty cid0 lab0 campus0 person purpose notes qty).2 = some e →
      (add_transaction st ty cid0 lab0 campus0 person purpose notes qty).1 = st) ∧
    (∀ e, (edit_transaction st transaction_id return_now rnotes).2 = .err e →
      (edit_transaction st transaction_id return_now rnotes).1 = st) := by
  constructor
  · intro e he
    exact add_error_keeps_store st ty cid0 lab0 campus0 person purpose notes qty
      (by rw [he]; exact fun hh => Option.noConfusion hh)
  · intro e he
    exact edit_error_keeps_store st transaction_id return_now rnotes
      (by rw [he]; exact fun hh => EditOutcome.noConfusion hh)

/-- Claim C6: successful issues and returns preserve the invariant that
pending_qty equals qty_issued minus qty_returned on every transaction in the
store. -/
theorem pending_qty_invariant_preserved (st : Store) (cid lab : Nat)
    (campus0 : Option String) (person purpose notes : String) (qty : Int)
    (hinv : pendingInv st.transactions) :
    (∀ st', add_transaction st "issue" (some cid) (some lab) campus0 person purpose notes qty
        = (st', none) → pendingInv st'.transactions) ∧
    (∀ st', add_transaction st "return" (some cid) (some lab) campus0 person purpose notes qty
        = (st', none) → pendingInv st'.transactions) := by
  constructor
  · intro st' h
    obtain ⟨-, -, -, c, -, -, -, hbr⟩ := issue_ok_inv _ _ _ _ _ _ _ _ _ h
    rcases hbr with ⟨t, -, htr, -⟩ | ⟨-, htr, -⟩
    · rw [htr]
      intro u hu
      rcases mem_setTxn hu with rfl | hu
      · rfl
      · exact hinv u hu
    · rw [htr]
      intro u hu
      rcases List.mem_append.mp hu with hu | hu
      · exact hinv u hu
      · rcases List.mem_singleton.mp hu with rfl
        show qty = qty - 0
        omega
  · intro st' h
    obtain ⟨-, -, -, c, t, -, -, -, -, htr, -, -⟩ := return_ok_inv _ _ _ _ _ _ _ _ _ h
    rw [htr]
    intro u hu
    rcases mem_setTxn hu with rfl | hu
    · rfl
    · exact hinv u hu

/-- Claim C8: a successful return with non-empty new notes appends
"Return: <notes>" on a new line after the existing notes and leaves the
notes unchanged when no new notes are given, while a merge-path issue
overwrites the notes entirely when new notes are supplied and keeps the
prior notes verbatim otherwise. -/
theorem notes_appended_on_return_overwritten_on_issue (st : Store) (cid lab : Nat)
    (campus0 : Option String) (person purpose notes : String) (qty : Int) :
    (∀ st' t, add_transaction st "return" (some cid) (some lab) campus0 person purpose notes qty
        = (st', none) →
      findOpen st.transactions ⟨cid, some lab, normCampus campus0, person, purpose⟩ = some t →
      ∃ t', st'.transactions = setTxn st.transactions t.id t' ∧
        t'.notes = t.notes ++ (if notes = "" then "" else "\nReturn: " ++ notes)) ∧
    (∀ st' t, add_transaction st "issue" (some cid) (some lab) campus0 person purpose notes qty
        = (st', none) →
      findOpen st.transactions ⟨cid, some lab, normCampus campus0, person, purpose⟩ = some t →
      ∃ t', st'.transactions = setTxn st.transactions t.id t' ∧
        t'.notes = (if notes = "" then t.notes else notes)) := by
  constructor
  · intro st' t h hfind
    obtain ⟨-, -, -, c, t0, -, hfind0, -, -, htr, -, -⟩ := return_ok_inv _ _ _ _ _ _ _ _ _ h
    rw [hfind] at hfind0
    cases Option.some.inj hfind0
    exact ⟨_, htr, rfl⟩
  · intro st' t h hfind
    obtain ⟨-, -, -, c, -, -, -, hbr⟩ := issue_ok_inv _ _ _ _ _ _ _ _ _ h
    rcases hbr with ⟨t0, hfind0, htr, -⟩ | ⟨hfind0, -, -⟩
    · rw [hfind] at hfind0
      cases Option.some.inj hfind0
      exact ⟨_, htr, rfl⟩
    · rw [hfind] at hfind0
      exact Option.noConfusion hfind0

/-- Claim C10: a successful issue only produces or updates transactions
whose status is open (Issued or Partially Returned), never Completed,
provided qty_returned was at most qty_issued on every transaction
beforehand. -/
theorem successful_issue_leaves_open_status (st : Store) (cid lab : Nat)
    (campus0 : Option String) (person purpose notes : String) (qty : Int) (st' : Store)
    (hwf : ∀ t ∈ st.transactions, t.qty_returned ≤ t.qty_issued)
    (h : add_transaction st "issue" (some cid) (some lab) campus0 person purpose notes qty
      = (st', none)) :
    ∀ u ∈ st'.transactions, u ∈ st.transactions ∨ u.status.isOpen = true := by
  obtain ⟨hq, -, -, c, -, -, -, hbr⟩ := issue_ok_inv _ _ _ _ _ _ _ _ _ h
  rcases hbr with ⟨t, hfind, htr, -⟩ | ⟨-, htr, -⟩
  · have ht := (findOpen_some hfind).1
    have hwt := hwf t ht
    rw [htr]
    intro u hu
    rcases mem_setTxn hu with rfl | hu
    · right
      show Status.isOpen (if t.qty_returned = 0 then Status.issued
        else if t.qty_issued + qty - t.qty_returned ≤ 0 then Status.completed
        else Status.partReturned) = true
      rcases eq_or_ne t.qty_returned 0 with h0 | h0
      · rw [if_pos h0]; rfl
      · rw [if_neg h0, if_neg (by omega)]; rfl
    · exact Or.inl hu
  · rw [htr]
    intro u hu
    rcases List.mem_append.mp hu with hu | hu
    · exact Or.inl hu
    · rcases List.mem_singleton.mp hu with rfl
      exact Or.inr rfl

/-- Claim C7: issues and returns preserve the invariant that at most one
open (Issued or Partially Returned) transaction exists per matching key —
an issue appends a fresh transaction only when the lookup over open statuses
finds none — and a Completed transaction is never merged into or reopened:
it survives every successful operation untouched. -/
theorem at_most_one_open_invariant_preserved (st : Store) (cid lab : Nat)
    (campus0 : Option String) (person purpose notes : String) (qty : Int)
    (hnodup : (st.transactions.map Txn.id).Nodup)
    (hone : atMostOneOpen st.transactions) :
    (∀ st', add_transaction st "issue" (some cid) (some lab) campus0 person purpose notes qty
        = (st', none) →
      atMostOneOpen st'.transactions ∧
      ∀ t ∈ st.transactions, t.status = Status.completed → t ∈ st'.transactions) ∧
    (∀ st', add_transaction st "return" (some cid) (some lab) campus0 person purpose notes qty
        = (st', none) →
      atMostOneOpen st'.transactions ∧
      ∀ t ∈ st.transactions, t.status = Status.completed → t ∈ st'.transactions) := by
  constructor
  · intro st' h
    obtain ⟨-, -, -, c, -, -, -, hbr⟩ := issue_ok_inv _ _ _ _ _ _ _ _ _ h
    rcases hbr with ⟨t, hfind, htr, -⟩ | ⟨hfind, htr, -⟩
    · obtain ⟨ht, -, hopen⟩ := findOpen_some hfind
      rw [htr]
      constructor
      · intro k
        refine le_trans (openCount_setTxn_le hnodup ht ?_ hopen k) (hone k)
        rfl
      · intro v hv hvc
        exact completed_mem_setTxn hnodup ht hopen hv hvc
    · rw [htr]
      constructor
      · exact atMostOneOpen_append hone hfind rfl
      · intro v hv _
        exact List.mem_append_left _ hv
  · intro st' h
    obtain ⟨-, -, -, c, t, -, hfind, -, -, htr, -, -⟩ := return_ok_inv _ _ _ _ _ _ _ _ _ h
    obtain ⟨ht, -, hopen⟩ := findOpen_some hfind
    rw [htr]
    constructor
    · intro k
      refine le_trans (openCount_setTxn_le hnodup ht ?_ hopen k) (hone k)
      rfl
    · intro v hv hvc
      exact completed_mem_setTxn hnodup ht hopen hv hvc

/-- Claim C9: the edit-screen return form (return against a transaction id,
re-deriving lab, campus, person and purpose from the stored row) is
functionally equivalent to the direct return form invoked with the same
component, the same key values and the same quantity and notes: from the
same store both fail with the same domain error or produce the same
resulting store.  The hypotheses record wellformedness every app-created
transaction satisfies: a lab is set, person and purpose are non-empty and
the campus is not the empty string. -/
theorem edit_screen_return_equiv_direct_return (st : Store) (transaction_id : Nat)
    (txn : Txn) (lab : Nat) (comp : Component) (qty : Int) (notes : String)
    (hfind : st.transactions.find? (fun t => t.id == transaction_id) = some txn)
    (hcomp : getComponent st.components txn.component_id = some comp)
    (hlab : txn.lab_id = some lab)
    (hperson : txn.person_name ≠ "") (hpurpose : txn.purpose ≠ "")
    (hcampus : txn.campus ≠ some "") :
    edit_transaction st transaction_id qty notes =
      ((add_transaction st "return" (some txn.component_id) txn.lab_id txn.campus
          txn.person_name txn.purpose notes qty).1,
       match (add_transaction st "return" (some txn.component_id) txn.lab_id txn.campus
          txn.person_name txn.purpose notes qty).2 with
       | some e => EditOutcome.err e
       | none => EditOutcome.ok) := by
  have hnc : normCampus txn.campus = txn.campus := by
    unfold normCampus
    rw [if_neg hcampus]
  simp only [edit_transaction, add_transaction, hfind, hcomp, hlab, hnc, hperson, hpurpose,
    Option.isNone_some, Bool.false_eq_true, if_false, or_self]
  repeat' split
  all_goals simp_all


/-- Witness for claim C1, at the merge path of the concrete fixture. -/
theorem issue_merges_or_creates_witness :
    (∀ t, findOpen S1.transactions ⟨1, some 1, normCampus none, "alice", "proj"⟩ = some t →
      ∃ t', S2.transactions = setTxn S1.transactions t.id t' ∧
        t'.qty_issued = t.qty_issued + 3 ∧
        t'.qty_returned = t.qty_returned ∧
        t'.pending_qty = t'.qty_issued - t'.qty_returned ∧
        t'.status = (if t.qty_returned = 0 then Status.issued
          else if t'.pending_qty ≤ 0 then Status.completed
          else Status.partReturned)) ∧
    (findOpen S1.transactions ⟨1, some 1, normCampus none, "alice", "proj"⟩ = none →
      ∃ t', S2.transactions = S1.transactions ++ [t'] ∧
        t'.key = ⟨1, some 1, normCampus none, "alice", "proj"⟩ ∧
        t'.qty_issued = 3 ∧ t'.qty_returned = 0 ∧
        t'.pending_qty = 3 ∧ t'.status = Status.issued) :=
  issue_merges_or_creates S1 1 1 none "alice" "proj" "" 3 S2 (by decide)

/-- Witness for claim C2, returning two of seven pending units. -/
theorem return_updates_transaction_and_stock_witness :
    ∃ c t t', getComponent S2.components 1 = some c ∧
      findOpen S2.transactions ⟨1, some 1, normCampus none, "alice", "proj"⟩ = some t ∧
      S3.transactions = setTxn S2.transactions t.id t' ∧
      t'.qty_returned = t.qty_returned + 2 ∧
      t'.qty_issued = t.qty_issued ∧
      t'.pending_qty = t.qty_issued - (t.qty_returned + 2) ∧
      t'.status = (if t.qty_issued - (t.qty_returned + 2) ≤ 0 then Status.completed
        else Status.partReturned) ∧
      S3.components = setQuantity S2.components 1 (c.quantity + 2) :=
  return_updates_transaction_and_stock S2 1 1 none "alice" "proj" "" 2 S3 (by decide)

/-- Witness for claim C3: issuing four of ten succeeds and decrements stock;
issuing twenty of ten is rejected carrying both amounts. -/
theorem issue_decrements_stock_and_rejects_insufficient_witness :
    (∃ c, getComponent S0.components 1 = some c ∧
      S1.components = setQuantity S0.components 1 (c.quantity - 4) ∧
      0 ≤ c.quantity - 4) ∧
    add_transaction S0 "issue" (some 1) (some 1) none "alice" "proj" "" 20
      = (S0, some (.insufficientStock 20 10)) :=
  ⟨(issue_decrements_stock_and_rejects_insufficient S0 1 1 none "alice" "proj" "" 4).1 S1
      (by decide),
   (issue_decrements_stock_and_rejects_insufficient S0 1 1 none "alice" "proj" "" 20).2
      ⟨1, 10⟩ (by decide) (by decide) (by decide) (by decide) (by decide)⟩

/-- Witness for claim C4: the three rejection cases at concrete stores. -/
theorem return_request_error_cases_witness :
    add_transaction S0 "return" (some 1) (some 1) none "bob" "x" "" 1
      = (S0, some .noOpenTxn) ∧
    add_transaction Spend "return" (some 1) (some 1) none "alice" "proj" "" 1
      = (Spend, some .nothingPendingToReturn) ∧
    add_transaction S2 "return" (some 1) (some 1) none "alice" "proj" "" 8
      = (S2, some (.returnExceedsPending 8 7)) :=
  ⟨(return_request_error_cases S0 1 1 none "bob" "x" "" 1 ⟨1, 10⟩ (by decide) (by decide)
      (by decide) (by decide)).1 (by decide),
   (return_request_error_cases Spend 1 1 none "alice" "proj" "" 1 ⟨1, 10⟩ (by decide)
      (by decide) (by decide) (by decide)).2.1 Tpend (by decide) (by decide),
   (return_request_error_cases S2 1 1 none "alice" "proj" "" 8 ⟨1, 3⟩ (by decide) (by decide)
      (by decide) (by decide)).2.2 T1 (by decide) (by decide) (by decide)⟩

/-- Witness for claim C5: a zero-quantity issue and a zero-quantity
edit-screen return both leave their stores untouched. -/
theorem failed_operations_leave_store_unchanged_witness :
    (add_transaction S0 "issue" (some 1) (some 1) none "alice" "proj" "" 0).1 = S0 ∧
    (edit_transaction S2 0 0 "").1 = S2 :=
  ⟨(failed_operations_leave_store_unchanged S0 "issue" (some 1) (some 1) none "alice" "proj"
      "" 0 0 0 "").1 .invalidQuantity (by decide),
   (failed_operations_leave_store_unchanged S2 "issue" (some 1) (some 1) none "alice" "proj"
      "" 0 0 0 "").2 .invalidQuantity (by decide)⟩

/-- Witness for claim C6 at the one-transaction fixture. -/
theorem pending_qty_invariant_preserved_witness :
    (∀ st', add_transaction S1 "issue" (some 1) (some 1) none "alice" "proj" "" 3
        = (st', none) → pendingInv st'.transactions) ∧
    (∀ st', add_transaction S1 "return" (some 1) (some 1) none "alice" "proj" "" 3
        = (st', none) → pendingInv st'.transactions) :=
  pending_qty_invariant_preserved S1 1 1 none "alice" "proj" "" 3
    (by unfold pendingInv; decide)

/-- Witness for claim C7 at the one-transaction fixture. -/
theorem at_most_one_open_invariant_preserved_witness :
    (∀ st', add_transaction S1 "issue" (some 1) (some 1) none "alice" "proj" "" 3
        = (st', none) →
      atMostOneOpen st'.transactions ∧
      ∀ t ∈ S1.transactions, t.status = Status.completed → t ∈ st'.transactions) ∧
    (∀ st', add_transaction S1 "return" (some 1) (some 1) none "alice" "proj" "" 3
        = (st', none) →
      atMostOneOpen st'.transactions ∧
      ∀ t ∈ S1.transactions, t.status = Status.completed → t ∈ st'.transactions) :=
  at_most_one_open_invariant_preserved S1 1 1 none "alice" "proj" "" 3 (by decide)
    (atMostOneOpen_single T0)

/-- Witness for claim C8: a return appending "Return: ok" and a merge-path
issue keeping the prior notes verbatim when none are supplied. -/
theorem notes_appended_on_return_overwritten_on_issue_witness :
    (∃ t', S3n.transactions = setTxn S2.transactions T1.id t' ∧
      t'.notes = T1.notes ++ (if "ok" = "" then "" else "\nReturn: " ++ "ok")) ∧
    (∃ t', S2.transactions = setTxn S1.transactions T0.id t' ∧
      t'.notes = (if "" = "" then T0.notes else "")) :=
  ⟨(notes_appended_on_return_overwritten_on_issue S2 1 1 none "alice" "proj" "ok" 2).1 S3n T1
      (by decide) (by decide),
   (notes_appended_on_return_overwritten_on_issue S1 1 1 none "alice" "proj" "" 3).2 S2 T0
      (by decide) (by decide)⟩

/-- Witness for claim C9: returning two units against transaction id zero of
the fixture agrees with the direct return form. -/
theorem edit_screen_return_equiv_direct_return_witness :
    edit_transaction S2 0 2 "" =
      ((add_transaction S2 "return" (some T1.component_id) T1.lab_id T1.campus
          T1.person_name T1.purpose "" 2).1,
       match (add_transaction S2 "return" (some T1.component_id) T1.lab_id T1.campus
          T1.person_name T1.purpose "" 2).2 with
       | some e => EditOutcome.err e
       | none => EditOutcome.ok) :=
  edit_screen_return_equiv_direct_return S2 0 T1 1 ⟨1, 3⟩ 2 "" (by decide) (by decide)
    (by decide) (by decide) (by decide) (by decide)

/-- Witness for claim C10 at the merge path of the concrete fixture: the
merged transaction stays open. -/
theorem successful_issue_leaves_open_status_witness :
    T1 ∈ S1.transactions ∨ T1.status.isOpen = true :=
  successful_issue_leaves_open_status S1 1 1 none "alice" "proj" "" 3 S2 (by decide) (by decide)
    T1 (by decide)

end ComponentsData
